import Mathlib

/-!
Verification of the LAN server-discovery and polling client of the
Minecraft companion app.

The development shallowly embeds the TypeScript sources:
* `MinecraftAPIClient` (`MinecraftAPI` class): `fetchCoordinates`,
  `checkHealth`, `findServers`, `testServer`, `getLocalNetworkBases`;
* the home screen (`index.tsx`): `startUpdates`, `stopUpdates`,
  `handleConnect`, `handleDisconnect` together with the React component
  state they mutate.

Network effects are modelled by passing the outcome of each HTTP request
explicitly: a `FetchOutcome` records whether `fetch` threw (network
error, abort/timeout), and otherwise the response's `ok` flag and the
result of parsing its JSON body (`none` when `.json()` would throw).
-/

/-- Outcome of one `fetch` call as observed by the caller.
`err` models a thrown error (connection failure, DNS failure, or an
abort fired by the timeout controller); `resp ok body` models a
completed response with its `ok` flag and, when the body is read, the
outcome of JSON parsing (`none` = `.json()` throws on a malformed body,
`some v` = the decoded value). -/
inductive FetchOutcome (α : Type) where
  | err : FetchOutcome α
  | resp (ok : Bool) (body : Option α) : FetchOutcome α
deriving DecidableEq, Repr

/-- Payload of `GET /coords` (`types/minecraft.ts`, `PlayerCoordinates`).
The numeric coordinate fields are carried opaquely (the app never
computes with them, it only stores and re-renders snapshots), so IEEE
floats are embedded as integers. `playerName` is `Option String` so
that a missing field (JS `undefined`) is representable; the empty
string and `none` are both falsy for the `||` defaulting below. -/
structure PlayerCoordinates where
  x : Int
  y : Int
  z : Int
  dimension : String
  timestamp : Nat
  playerName : Option String
deriving DecidableEq, Repr

/-- Payload of `GET /health` (`types/minecraft.ts`, `HealthResponse`). -/
structure HealthResponse where
  status : String
  timestamp : Nat
deriving DecidableEq, Repr

/-- Result record `ServerInfo` as declared in `MinecraftAPIClient`. -/
structure ServerInfo where
  ip : String
  port : Nat
  playerName : String
  isOnline : Bool
deriving DecidableEq, Repr

/-- JS `v || d` on a possibly-missing string: `undefined`, `null` and
`""` are falsy and select the default. -/
def jsOrDefault (v : Option String) (d : String) : String :=
  match v with
  | none => d
  | some s => if s = "" then d else s

/-! ## Candidate generation (`findServers`, lines 77-84) -/

/-- Priority host octets:
`const priorityIPs = [1, 100, 101, 102, 103, 104, 105, 110, 150, 200]`. -/
def priorityIPs : List Nat := [1, 100, 101, 102, 103, 104, 105, 110, 150, 200]

/-- Concatenation
`[...priorityIPs, ...Array.from({length: 254}, (_, i) => i + 1)
   .filter(i => !priorityIPs.includes(i))]`. -/
def allIPs : List Nat :=
  priorityIPs ++ (((List.range 254).map (· + 1)).filter (fun i => !priorityIPs.contains i))

/-- First 30 octets, `allIPs.slice(0, 30)` — the hosts actually probed
per subnet. -/
def candidateOctets : List Nat := allIPs.take 30

/-- The full candidate addresses for one subnet base:
`const ip = baseIP + "." + i` for each probed octet, in loop order. -/
def candidates (baseIP : String) : List String :=
  candidateOctets.map (fun i => baseIP ++ "." ++ toString i)

/-- True when `'.'` does not occur in the string (the decimal rendering
of a probed octet is dot-free, which makes address concatenation
unambiguous). -/
def dotFree (s : String) : Bool := decide ('.' ∉ s.data)

/-! ## Probe (`testServer`, lines 99-143)

The probe performs `GET /health`, then — only if health is 2xx —
`GET /coords`, under one shared abort controller; every thrown error is
swallowed by the enclosing `try`/`catch` and becomes `null`. The health
body is never parsed, so its JSON outcome is irrelevant. -/

def testServer (ip : String) (port : Nat)
    (health : FetchOutcome HealthResponse)
    (coords : FetchOutcome PlayerCoordinates) : Option ServerInfo :=
  match health with
  | .err => none
  | .resp false _ => none
  | .resp true _ =>
    match coords with
    | .err => none
    | .resp true none => none
    | .resp true (some c) =>
      some { ip := ip, port := port,
             playerName := jsOrDefault c.playerName "Unknown Player",
             isOnline := true }
    | .resp false _ =>
      some { ip := ip, port := port, playerName := "Player Offline",
             isOnline := false }

/-! ## Subnet resolution (`getLocalNetworkBases`, lines 145-176) -/

/-- JS `s.split('.')` on the character list: cut at every `'.'`,
keeping empty segments (`"".split('.')` is `[""]`, `"a..b".split('.')`
is `["a","","b"]`). -/
def splitDots : List Char → List (List Char)
  | [] => [[]]
  | c :: cs =>
    let r := splitDots cs
    if c = '.' then [] :: r
    else
      match r with
      | [] => [[c]]
      | h :: t => (c :: h) :: t

/-- JS `s.split('.')`. -/
def jsSplitDot (s : String) : List String := (splitDots s.data).map String.mk

/-- JS `parts.join('.')`. -/
def joinDots : List String → String
  | [] => ""
  | [x] => x
  | x :: y :: xs => x ++ "." ++ joinDots (y :: xs)

/-- JS `s.startsWith(p)`. -/
def jsStartsWith (s p : String) : Bool := p.data.isPrefixOf s.data

/-- The hard-coded fallback prefixes. -/
def defaultBases : List String := ["192.168.1", "192.168.0", "10.0.0", "172.16.0"]

/-- Embedding of `getLocalNetworkBases()`. The lookup parameter is the
outcome of the `fetch('https://api.ipify.org?format=json')` call; its
parsed body is the `ip` field of the JSON answer (`none` covers both a
malformed body and a missing `ip` field — either way the `try` block
throws before reaching the `return`, and the `catch` falls through to
the default list). -/
def getLocalNetworkBases (lookup : FetchOutcome String) : List String :=
  let bases := defaultBases
  match lookup with
  | .err => bases
  | .resp false _ => bases
  | .resp true none => bases
  | .resp true (some ip) =>
    let parts := jsSplitDot ip
    if parts.length = 4 then
      let baseIP := joinDots (parts.take 3)
      if jsStartsWith baseIP "192.168." || jsStartsWith baseIP "10." ||
          jsStartsWith baseIP "172." then
        baseIP :: bases.filter (fun b => b ≠ baseIP)
      else bases
    else bases

/-- The branch condition of `getLocalNetworkBases` on a decoded `ip`
string: four dot-separated parts whose first three look private. -/
def isPrivateQuad (ip : String) : Bool :=
  let parts := jsSplitDot ip
  decide (parts.length = 4) &&
    (let baseIP := joinDots (parts.take 3)
     jsStartsWith baseIP "192.168." || jsStartsWith baseIP "10." ||
       jsStartsWith baseIP "172.")

/-! ## Scanner (`findServers`, lines 68-97)

Per candidate address the network supplies the outcomes of the two
probe requests together with the tick at which the probe promise
settles (`ProbeBehavior`). `Promise.allSettled` resolves with one
outcome slot per input promise, in the order of the input array,
regardless of the order in which the promises settle; `testServer`
never rejects, so every slot is fulfilled. -/

structure ProbeBehavior where
  health : FetchOutcome HealthResponse
  coords : FetchOutcome PlayerCoordinates
  settleTime : Nat

/-- Semantics of `Promise.allSettled` on the probe jobs: the fulfilled
values in input order; the settlement times do not influence the
result array. -/
def allSettled (jobs : List (Option ServerInfo × Nat)) : List (Option ServerInfo) :=
  jobs.map Prod.fst

/-- One subnet's batch (loop body, lines 74-93): fan out `testServer`
over the candidate addresses, await `allSettled`, keep the fulfilled
non-`null` values in result order. -/
def scanBatch (net : String → Nat → ProbeBehavior) (port : Nat)
    (baseIP : String) : List ServerInfo :=
  let jobs := (candidates baseIP).map
    (fun ip => (testServer ip port (net ip port).health (net ip port).coords,
                (net ip port).settleTime))
  (allSettled jobs).reduceOption

/-- Embedding of `findServers(port)`: resolve the subnet bases, then
process the subnets sequentially, appending each batch's servers. -/
def findServers (net : String → Nat → ProbeBehavior)
    (lookup : FetchOutcome String) (port : Nat) : List ServerInfo :=
  (getLocalNetworkBases lookup).flatMap (scanBatch net port)

/-- Whether the health call failed from the probe's point of view:
`fetch` threw (connection error or abort on timeout) or the response
was not 2xx. -/
def healthCallFails {α : Type} : FetchOutcome α → Bool
  | .err => true
  | .resp ok _ => !ok

/-- A network on which every probe request throws. -/
def deadNet : String → Nat → ProbeBehavior :=
  fun _ _ => { health := .err, coords := .err, settleTime := 0 }

/-! ## API client methods (`fetchCoordinates` / `checkHealth`, lines 19-65)

Both methods run one timed `fetch`; a thrown error is logged and
rethrown, a non-2xx response raises `HTTP <status>`, and
`response.json()` raises on a malformed body. The caller therefore sees
`Except`: an error for a thrown fetch, a non-ok response, or a bad
body; the decoded payload otherwise. -/

def fetchCoordinates (o : FetchOutcome PlayerCoordinates) :
    Except String PlayerCoordinates :=
  match o with
  | .err => .error "fetch error"
  | .resp false _ => .error "HTTP error: Failed to fetch coordinates"
  | .resp true none => .error "malformed JSON"
  | .resp true (some c) => .ok c

def checkHealth (o : FetchOutcome HealthResponse) :
    Except String HealthResponse :=
  match o with
  | .err => .error "fetch error"
  | .resp false _ => .error "HTTP error: Server not responding"
  | .resp true none => .error "malformed JSON"
  | .resp true (some h) => .ok h

/-- Whether an API-client call fails from the caller's view: thrown
fetch, non-2xx response, or a 2xx response whose JSON body is malformed
(the class methods parse the body, unlike the probe's health check). -/
def callFails {α : Type} : FetchOutcome α → Bool
  | .err => true
  | .resp ok body => !ok || body.isNone

/-! ## Home screen state (`index.tsx`)

The component's mutable pieces: the five `useState` hooks used by the
connection logic, the `apiRef` ref holding the connected `MinecraftAPI`
instance (its construction parameters `ip`/`port`), and `intervalRef`
holding the live interval if any. A JS closure created by
`setInterval` captures the *render-time* value of the `isConnected`
state variable (state reads inside the callback are not live — they are
exactly the binding the callback closed over), while `apiRef.current`
is a ref and therefore always reads the current value; the interval
record keeps that captured boolean. -/

structure ApiInstance where
  ip : String
  port : Nat
deriving DecidableEq, Repr

/-- The closure installed by `setInterval` in `startUpdates`, with the
`isConnected` binding it captured from the render that created it. -/
structure IntervalClosure where
  capturedIsConnected : Bool
deriving DecidableEq, Repr

structure AppState where
  coordinates : Option PlayerCoordinates
  isConnected : Bool
  connectedServer : String
  lastUpdate : Nat
  apiRef : Option ApiInstance
  intervalRef : Option IntervalClosure
deriving DecidableEq, Repr

/-- The initial component state (`useState` initialisers and null refs). -/
def initialAppState : AppState :=
  { coordinates := none, isConnected := false, connectedServer := "",
    lastUpdate := 0, apiRef := none, intervalRef := none }

/-- Embedding of `startUpdates` (lines 86-104): clear any prior
interval, install a new one whose callback captures the current
render's `isConnected`. -/
def startUpdates (renderIsConnected : Bool) (s : AppState) : AppState :=
  { s with intervalRef := some { capturedIsConnected := renderIsConnected } }

/-- Embedding of `stopUpdates` (lines 106-111): clear the interval and
null the ref. -/
def stopUpdates (s : AppState) : AppState :=
  { s with intervalRef := none }

/-- One firing of the interval callback (lines 91-103): if the callback
runs at all, it fetches only when `apiRef.current` is set AND the
captured `isConnected` binding is true; a successful fetch stores the
snapshot and timestamp, a failed fetch only logs. -/
def intervalTick (o : FetchOutcome PlayerCoordinates) (now : Nat)
    (s : AppState) : AppState :=
  match s.intervalRef with
  | none => s
  | some cl =>
    if s.apiRef.isSome && cl.capturedIsConnected then
      match fetchCoordinates o with
      | .ok c => { s with coordinates := some c, lastUpdate := now }
      | .error _ => s
    else s

/-- Whether a firing of the installed interval callback would reach the
`fetchCoordinates` call at all. -/
def tickFetches (s : AppState) : Bool :=
  match s.intervalRef with
  | none => false
  | some cl => s.apiRef.isSome && cl.capturedIsConnected

/-- Embedding of `handleConnect` (lines 113-149), invoked from a render
whose `isConnected` value is `renderIsConnected` and whose shown
`permissionsGranted` is as given; `health`/`coords` are the outcomes of
the two sequential API calls, `now` is `Date.now()`. Returns the new
state and the number of alerts shown. -/
def handleConnect (permissionsGranted renderIsConnected : Bool)
    (ip : String) (port : Nat)
    (health : FetchOutcome HealthResponse)
    (coords : FetchOutcome PlayerCoordinates)
    (now : Nat) (s : AppState) : AppState × Nat :=
  if permissionsGranted = false then (s, 1)
  else
    match checkHealth health with
    | .error _ => (s, 1)
    | .ok _ =>
      match fetchCoordinates coords with
      | .error _ => (s, 1)
      | .ok c =>
        let s1 : AppState :=
          { s with apiRef := some { ip := ip, port := port },
                   coordinates := some c,
                   isConnected := true,
                   connectedServer := ip ++ ":" ++ toString port,
                   lastUpdate := now }
        (startUpdates renderIsConnected s1, 0)

/-- Embedding of `handleDisconnect` (lines 151-158). -/
def handleDisconnect (s : AppState) : AppState :=
  let s1 := stopUpdates s
  { s1 with apiRef := none, coordinates := none, isConnected := false,
            connectedServer := "", lastUpdate := 0 }

/-- The component state reached by a successful connect: both calls
succeeded, the API instance is stored, the first snapshot is set, and
the polling interval is installed with the captured render value. -/
def connectedState (ric : Bool) (ip : String) (port : Nat)
    (c : PlayerCoordinates) (now : Nat) (s : AppState) : AppState :=
  { s with apiRef := some { ip := ip, port := port },
           coordinates := some c,
           isConnected := true,
           connectedServer := ip ++ ":" ++ toString port,
           lastUpdate := now,
           intervalRef := some { capturedIsConnected := ric } }

/-! ## Spec-side apparatus

The functions `sortBySettle`/`findServersSettlementOrder` follow the
SPEC's words ("first-to-settle is recorded in settlement order"), to be
compared with the implementation's order. `reTime` replaces the
settlement times of a network, to express that the implementation's
output does not depend on them. `spec_fill_octets` follows the spec's
description of the ascending fill after the priority octets. -/

def insertBySettle (time : ServerInfo → Nat) (x : ServerInfo) :
    List ServerInfo → List ServerInfo
  | [] => [x]
  | y :: ys =>
    if time x ≤ time y then x :: y :: ys else y :: insertBySettle time x ys

def sortBySettle (time : ServerInfo → Nat) : List ServerInfo → List ServerInfo
  | [] => []
  | x :: xs => insertBySettle time x (sortBySettle time xs)

/-- Modelled from the spec: each subnet batch's successful results
listed in settlement (completion-time) order, batches still in subnet
order. -/
def findServersSettlementOrder (net : String → Nat → ProbeBehavior)
    (lookup : FetchOutcome String) (port : Nat) : List ServerInfo :=
  (getLocalNetworkBases lookup).flatMap
    (fun base => sortBySettle (fun r => (net r.ip port).settleTime)
      (scanBatch net port base))

/-- Replace every probe's settlement time, keeping the HTTP outcomes. -/
def reTime (net : String → Nat → ProbeBehavior) (t : String → Nat → Nat) :
    String → Nat → ProbeBehavior :=
  fun ip port => { net ip port with settleTime := t ip port }

/-- Modelled from the spec: the ascending fill — the host octets not in
the priority list, smallest first, as many as the 30-slot cap leaves
after the 10 priority octets. -/
def spec_fill_octets : List Nat :=
  (((List.range 254).map (· + 1)).filter (fun i => ¬ i ∈ priorityIPs)).take 20

/-! ## Concrete scenarios used by closed statements -/

def steveCoords : PlayerCoordinates :=
  { x := 1, y := 2, z := 3, dimension := "overworld", timestamp := 1000,
    playerName := some "Steve" }

def alexCoords : PlayerCoordinates :=
  { x := 4, y := 5, z := 6, dimension := "overworld", timestamp := 1000,
    playerName := some "Alex" }

/-- A network where exactly two hosts of the first default subnet
respond: `.1` settles late (tick 10) and `.100` settles early (tick 5);
every other probe throws. -/
def exNet : String → Nat → ProbeBehavior := fun ip _ =>
  if ip = "192.168.1.1" then
    { health := .resp true none, coords := .resp true (some steveCoords),
      settleTime := 10 }
  else if ip = "192.168.1.100" then
    { health := .resp true none, coords := .resp true (some alexCoords),
      settleTime := 5 }
  else { health := .err, coords := .err, settleTime := 0 }

set_option maxRecDepth 4096

/-! ## String plumbing

The generated addresses are strings `base ++ "." ++ octet`; to reason
about duplicates we need that this concatenation is injective when the
octet part contains no dot. -/

theorem list_takeWhile_append_cons {α : Type} (p : α → Bool) (xs : List α) (y : α)
    (ys : List α) (hxs : ∀ x ∈ xs, p x = true) (hy : p y = false) :
    (xs ++ y :: ys).takeWhile p = xs := by
  induction xs with
  | nil => simp [List.takeWhile_cons, hy]
  | cons a as ih =>
    have ha : p a = true := hxs a (by simp)
    simp only [List.cons_append, List.takeWhile_cons, ha, if_true]
    have : ∀ x ∈ as, p x = true := fun x hx => hxs x (by simp [hx])
    simp [ih this]

/-- Splitting a list at a marker character that does not occur in the
suffixes is unambiguous. -/
theorem append_marker_inj (a b s t : List Char)
    (hs : '.' ∉ s) (ht : '.' ∉ t)
    (h : a ++ '.' :: s = b ++ '.' :: t) : a = b ∧ s = t := by
  have hrev : s.reverse ++ '.' :: a.reverse = t.reverse ++ '.' :: b.reverse := by
    have := congrArg List.reverse h
    simpa using this
  have hsall : ∀ x ∈ s.reverse, (x ≠ '.' : Bool) = true := by
    intro x hx
    have : x ∈ s := by simpa using hx
    simp only [ne_eq, decide_eq_true_eq]
    exact fun hEq => hs (hEq ▸ this)
  have htall : ∀ x ∈ t.reverse, (x ≠ '.' : Bool) = true := by
    intro x hx
    have : x ∈ t := by simpa using hx
    simp only [ne_eq, decide_eq_true_eq]
    exact fun hEq => ht (hEq ▸ this)
  have hdot : (('.' : Char) ≠ '.' : Bool) = false := by simp
  have h1 := list_takeWhile_append_cons (fun x => x ≠ '.') s.reverse '.' a.reverse hsall hdot
  have h2 := list_takeWhile_append_cons (fun x => x ≠ '.') t.reverse '.' b.reverse htall hdot
  have hst : s.reverse = t.reverse := by rw [← h1, ← h2, hrev]
  have hst' : s = t := by
    have := congrArg List.reverse hst
    simpa using this
  constructor
  · subst hst'
    exact List.append_cancel_right h
  · exact hst'

theorem string_dot_append_inj (p q x y : String)
    (hx : dotFree x = true) (hy : dotFree y = true)
    (h : p ++ "." ++ x = q ++ "." ++ y) : p = q ∧ x = y := by
  have hdata : p.data ++ '.' :: x.data = q.data ++ '.' :: y.data := by
    have := congrArg String.data h
    simpa using this
  have hx' : '.' ∉ x.data := of_decide_eq_true hx
  have hy' : '.' ∉ y.data := of_decide_eq_true hy
  obtain ⟨h1, h2⟩ := append_marker_inj p.data q.data x.data y.data hx' hy' hdata
  exact ⟨String.ext h1, String.ext h2⟩

/-! ## Candidate-generator facts -/

theorem candidateOctets_eq :
    candidateOctets = [1, 100, 101, 102, 103, 104, 105, 110, 150, 200,
      2, 3, 4, 5, 6, 7, 8, 9, 10, 11, 12, 13, 14, 15, 16, 17, 18, 19, 20, 21] := by
  decide

theorem candidates_eq (b : String) :
    candidates b =
      [".1", ".100", ".101", ".102", ".103", ".104", ".105", ".110", ".150",
       ".200", ".2", ".3", ".4", ".5", ".6", ".7", ".8", ".9", ".10", ".11",
       ".12", ".13", ".14", ".15", ".16", ".17", ".18", ".19", ".20",
       ".21"].map (b ++ ·) := by
  simp only [candidates, candidateOctets_eq, List.map_cons, List.map_nil,
    String.append_assoc]
  rfl

theorem candidates_nodup (b : String) : (candidates b).Nodup := by
  have hoct : candidateOctets.Nodup := by decide
  refine List.Nodup.map_on ?_ hoct
  intro i hi j hj heq
  have hdf : ∀ k ∈ candidateOctets, dotFree (toString k) = true := by decide
  have hts : toString i = toString j :=
    (string_dot_append_inj b b _ _ (hdf i hi) (hdf j hj) heq).2
  have hmap : (candidateOctets.map toString).Nodup := by decide
  exact List.inj_on_of_nodup_map hmap hi hj hts

/-- C1: for every subnet base, the candidate sequence starts with the
ten priority addresses `.1 .100 .101 .102 .103 .104 .105 .110 .150
.200` in that literal order, continues with the smallest non-priority
host octets in ascending order, has length at most 30, repeats no
address, and uses only host octets in `[1, 254]`. -/
theorem claim_C1_candidate_sequence (b : String) :
    (candidates b).take 10 =
      [b ++ ".1", b ++ ".100", b ++ ".101", b ++ ".102", b ++ ".103",
       b ++ ".104", b ++ ".105", b ++ ".110", b ++ ".150", b ++ ".200"] ∧
    (candidates b).drop 10 =
      spec_fill_octets.map (fun i => b ++ "." ++ toString i) ∧
    (candidates b).length ≤ 30 ∧
    (candidates b).Nodup ∧
    (∀ i ∈ candidateOctets, 1 ≤ i ∧ i ≤ 254) := by
  refine ⟨?_, ?_, ?_, candidates_nodup b, by decide⟩
  · rw [candidates_eq]; rfl
  · rfl
  · rw [candidates_eq]; simp

/-! ## Probe claims -/

/-- C4: whenever the health call fails — thrown fetch, timeout abort,
or a non-2xx response — `testServer` returns `null` whatever the
coordinates call would have produced; being a total function into
`Option`, it propagates no exception. -/
theorem claim_C4_health_fail_absent (ip : String) (port : Nat)
    (health : FetchOutcome HealthResponse)
    (coords : FetchOutcome PlayerCoordinates)
    (h : healthCallFails health = true) :
    testServer ip port health coords = none := by
  cases health with
  | err => rfl
  | resp ok body =>
    cases ok with
    | false => rfl
    | true => simp [healthCallFails] at h

theorem claim_C4_witness :
    testServer "192.168.1.1" 8080 .err (.resp true none) = none :=
  claim_C4_health_fail_absent "192.168.1.1" 8080 .err (.resp true none) rfl

/-- C3 fails on the code: with a healthy `/health` response, a
coordinates fetch that THROWS (network error — a non-timeout failure)
lands in the catch-all and yields `null`, not the documented
`"Player Offline"` result. -/
theorem claim_C3_counterexample :
    testServer "192.168.1.5" 8080
        (.resp true (some { status := "ok", timestamp := 0 })) .err = none ∧
    testServer "192.168.1.5" 8080
        (.resp true (some { status := "ok", timestamp := 0 })) .err ≠
      some { ip := "192.168.1.5", port := 8080,
             playerName := "Player Offline", isOnline := false } := by
  exact ⟨rfl, by decide⟩

/-- C3 (amended): when health succeeds, the `"Player Offline"` result
is produced exactly for a coordinates response that completes with a
non-2xx status; a thrown coordinates fetch or a 2xx response with a
malformed body collapses to absent. -/
theorem claim_C3_offline_on_non2xx_only (ip : String) (port : Nat)
    (hb : Option HealthResponse) (cb : Option PlayerCoordinates) :
    testServer ip port (.resp true hb) (.resp false cb) =
      some { ip := ip, port := port, playerName := "Player Offline",
             isOnline := false } ∧
    testServer ip port (.resp true hb) .err = none ∧
    testServer ip port (.resp true hb) (.resp true none) = none :=
  ⟨rfl, rfl, rfl⟩

/-! ## Subnet-resolver claims -/

theorem getLocalNetworkBases_success (ip : String) :
    getLocalNetworkBases (.resp true (some ip)) =
      if isPrivateQuad ip then
        joinDots ((jsSplitDot ip).take 3) ::
          defaultBases.filter (fun b => b ≠ joinDots ((jsSplitDot ip).take 3))
      else defaultBases := by
  unfold getLocalNetworkBases isPrivateQuad
  by_cases h4 : (jsSplitDot ip).length = 4 <;> simp [h4]

theorem getLocalNetworkBases_nonprivate (ip : String)
    (hip : isPrivateQuad ip = false) :
    getLocalNetworkBases (.resp true (some ip)) = defaultBases := by
  rw [getLocalNetworkBases_success, hip]
  simp

theorem getLocalNetworkBases_ne_nil (o : FetchOutcome String) :
    getLocalNetworkBases o ≠ [] := by
  cases o with
  | err => exact fun h => List.noConfusion h
  | resp ok b =>
    cases ok with
    | false => cases b <;> exact fun h => List.noConfusion h
    | true =>
      cases b with
      | none => exact fun h => List.noConfusion h
      | some ip =>
        rw [getLocalNetworkBases_success]
        split <;> simp [defaultBases]

/-- C6: every failing outcome of the public-IP lookup — thrown fetch
(network error or timeout), non-2xx response, malformed body, or a
result that does not look like a private dotted quad — yields the
literal unmodified default base list, and the resolver's output is
never empty. -/
theorem claim_C6_resolver_default_fallback (o : FetchOutcome String)
    (b : Option String) (ip : String) (hip : isPrivateQuad ip = false) :
    getLocalNetworkBases .err = defaultBases ∧
    getLocalNetworkBases (.resp false b) = defaultBases ∧
    getLocalNetworkBases (.resp true none) = defaultBases ∧
    getLocalNetworkBases (.resp true (some ip)) = defaultBases ∧
    getLocalNetworkBases o ≠ [] :=
  ⟨rfl, rfl, rfl, getLocalNetworkBases_nonprivate ip hip,
    getLocalNetworkBases_ne_nil o⟩

theorem claim_C6_witness :
    getLocalNetworkBases .err = defaultBases ∧
    getLocalNetworkBases (.resp false none) = defaultBases ∧
    getLocalNetworkBases (.resp true none) = defaultBases ∧
    getLocalNetworkBases (.resp true (some "8.8.8.8")) = defaultBases ∧
    getLocalNetworkBases .err ≠ [] :=
  claim_C6_resolver_default_fallback .err none "8.8.8.8" (by decide)

/-! ## Scanner claims -/

theorem scanBatch_eq_filterMap (net : String → Nat → ProbeBehavior)
    (port : Nat) (base : String) :
    scanBatch net port base = (candidates base).filterMap
      (fun ip => testServer ip port (net ip port).health (net ip port).coords) := by
  unfold scanBatch allSettled
  simp only [List.reduceOption, List.map_map, List.filterMap_map]
  rfl

theorem findServers_eq_filterMap (net : String → Nat → ProbeBehavior)
    (lookup : FetchOutcome String) (port : Nat) :
    findServers net lookup port =
      ((getLocalNetworkBases lookup).flatMap candidates).filterMap
        (fun ip => testServer ip port (net ip port).health (net ip port).coords) := by
  unfold findServers
  rw [List.filterMap_flatMap]
  exact List.flatMap_congr fun b _ => scanBatch_eq_filterMap net port b

theorem length_filterMap_eq_length_filter {α β : Type} (f : α → Option β)
    (l : List α) :
    (l.filterMap f).length = (l.filter (fun a => (f a).isSome)).length := by
  induction l with
  | nil => rfl
  | cons a as ih =>
    cases h : f a <;>
      simp [List.filterMap_cons, List.filter_cons, h, ih]

/-- C2: a scan is a total function of the per-endpoint responses — it
cannot raise — and its output has exactly one `ServerInfo` per probed
candidate whose probe succeeds (no `null` entries survive), so its
length is the number of responsive candidates, and when no candidate
responds the output is the empty list. -/
theorem claim_C2_scan_collects_responders (net : String → Nat → ProbeBehavior)
    (lookup : FetchOutcome String) (port : Nat) :
    findServers net lookup port =
      ((getLocalNetworkBases lookup).flatMap candidates).filterMap
        (fun ip => testServer ip port (net ip port).health (net ip port).coords) ∧
    (findServers net lookup port).length =
      (((getLocalNetworkBases lookup).flatMap candidates).filter
        (fun ip => (testServer ip port (net ip port).health
          (net ip port).coords).isSome)).length ∧
    ((∀ ip : String,
        testServer ip port (net ip port).health (net ip port).coords = none) →
      findServers net lookup port = []) := by
  refine ⟨findServers_eq_filterMap net lookup port, ?_, ?_⟩
  · rw [findServers_eq_filterMap]
    exact length_filterMap_eq_length_filter _ _
  · intro hnone
    rw [findServers_eq_filterMap]
    simp [hnone]

theorem claim_C2_witness : findServers deadNet .err 8080 = [] :=
  (claim_C2_scan_collects_responders deadNet .err 8080).2.2 (fun _ => rfl)

/-- C5 fails on the code: `Promise.allSettled` resolves with its
outcomes in the order of the input promise array, so a batch's
successful results are pushed in the order the probe requests were
issued, not in settlement order. Concretely, with `.1` settling at
tick 10 and `.100` at tick 5, the scan still lists `.1` first. -/
theorem claim_C5_counterexample :
    findServers exNet .err 8080 =
      [{ ip := "192.168.1.1", port := 8080, playerName := "Steve",
         isOnline := true },
       { ip := "192.168.1.100", port := 8080, playerName := "Alex",
         isOnline := true }] ∧
    findServersSettlementOrder exNet .err 8080 =
      [{ ip := "192.168.1.100", port := 8080, playerName := "Alex",
         isOnline := true },
       { ip := "192.168.1.1", port := 8080, playerName := "Steve",
         isOnline := true }] ∧
    findServers exNet .err 8080 ≠ findServersSettlementOrder exNet .err 8080 :=
  ⟨by decide, by decide, by decide⟩

/-- C5 (amended): within one subnet's batch the successful results
appear in the order the probe requests were issued (the candidate
order) — the output is invariant under any change of the probes'
settlement times — and across subnets the batches appear in subnet
order. -/
theorem claim_C5_issue_order (net : String → Nat → ProbeBehavior)
    (t : String → Nat → Nat) (lookup : FetchOutcome String) (port : Nat) :
    findServers (reTime net t) lookup port = findServers net lookup port ∧
    findServers net lookup port = (getLocalNetworkBases lookup).flatMap
      (fun base => (candidates base).filterMap
        (fun ip => testServer ip port (net ip port).health
          (net ip port).coords)) := by
  constructor
  · rw [findServers_eq_filterMap, findServers_eq_filterMap]
    rfl
  · unfold findServers
    exact List.flatMap_congr fun b _ => scanBatch_eq_filterMap net port b

/-! ## Polling-client claims -/

/-- C8: a connect attempt performs health then coords sequentially
(coords is only consulted when health succeeds — visible in the success
clause requiring both payloads); if either call fails the caller gets
exactly one alert and the state is returned unchanged — no API
instance, no coordinates, no interval; if both succeed the state is
exactly the connected state. -/
theorem claim_C8_connect_transactional (ric : Bool) (ip : String)
    (port : Nat) (health : FetchOutcome HealthResponse)
    (coords : FetchOutcome PlayerCoordinates) (now : Nat) (s : AppState) :
    ((callFails health = true ∨ callFails coords = true) →
      handleConnect true ric ip port health coords now s = (s, 1)) ∧
    (∀ (hres : HealthResponse) (c : PlayerCoordinates),
      health = .resp true (some hres) → coords = .resp true (some c) →
      handleConnect true ric ip port health coords now s =
        (connectedState ric ip port c now s, 0)) := by
  constructor
  · intro hfail
    cases health with
    | err => rfl
    | resp hok hbody =>
      cases hok with
      | false => rfl
      | true =>
        cases hbody with
        | none => rfl
        | some hres =>
          rcases hfail with hf | hf
          · simp [callFails] at hf
          · cases coords with
            | err => rfl
            | resp cok cbody =>
              cases cok with
              | false => rfl
              | true =>
                cases cbody with
                | none => rfl
                | some c => simp [callFails] at hf
  · intro hres c hh hc
    subst hh
    subst hc
    rfl

theorem claim_C8_witness :
    handleConnect true false "192.168.1.7" 8080 .err .err 42
        initialAppState = (initialAppState, 1) ∧
    handleConnect true false "192.168.1.7" 8080
        (.resp true (some { status := "ok", timestamp := 1000 }))
        (.resp true (some steveCoords)) 42 initialAppState =
      (connectedState false "192.168.1.7" 8080 steveCoords 42
        initialAppState, 0) :=
  ⟨(claim_C8_connect_transactional false "192.168.1.7" 8080 .err .err 42
      initialAppState).1 (Or.inl rfl),
   (claim_C8_connect_transactional false "192.168.1.7" 8080
      (.resp true (some { status := "ok", timestamp := 1000 }))
      (.resp true (some steveCoords)) 42 initialAppState).2
      { status := "ok", timestamp := 1000 } steveCoords rfl rfl⟩

/-- C9: `handleDisconnect` maps every state to the initial (Idle)
state — interval cleared, snapshot and API reference discarded — so a
second call changes nothing, and the call is total (never errors). -/
theorem claim_C9_disconnect_idempotent (s : AppState) :
    handleDisconnect s = initialAppState ∧
    handleDisconnect (handleDisconnect s) = handleDisconnect s ∧
    (handleDisconnect s).isConnected = false ∧
    (handleDisconnect s).intervalRef = none ∧
    (handleDisconnect s).coordinates = none ∧
    (handleDisconnect s).apiRef = none :=
  ⟨rfl, rfl, rfl, rfl, rfl, rfl⟩

/-- C7 fails on the code: the `setInterval` callback installed via
`startUpdates()` inside `handleConnect` closes over the render-time
`isConnected` binding. Any render offering a connect action has
`isConnected = false` (the scanner is rendered only when disconnected),
so after a fully successful connect the interval's captured flag is
`false`, the guard `apiRef.current && isConnected` fails on every tick,
and no tick ever performs a coordinate fetch — the state after any tick
is unchanged whatever the endpoint would answer. -/
theorem claim_C7_stale_closure_starves_polling :
    (handleConnect true false "192.168.1.7" 8080
        (.resp true (some { status := "ok", timestamp := 1000 }))
        (.resp true (some steveCoords)) 42 initialAppState).1.isConnected
      = true ∧
    (handleConnect true false "192.168.1.7" 8080
        (.resp true (some { status := "ok", timestamp := 1000 }))
        (.resp true (some steveCoords)) 42 initialAppState).1.intervalRef
      = some { capturedIsConnected := false } ∧
    tickFetches (handleConnect true false "192.168.1.7" 8080
        (.resp true (some { status := "ok", timestamp := 1000 }))
        (.resp true (some steveCoords)) 42 initialAppState).1 = false ∧
    ∀ (o : FetchOutcome PlayerCoordinates) (now : Nat),
      intervalTick o now (handleConnect true false "192.168.1.7" 8080
        (.resp true (some { status := "ok", timestamp := 1000 }))
        (.resp true (some steveCoords)) 42 initialAppState).1 =
      (handleConnect true false "192.168.1.7" 8080
        (.resp true (some { status := "ok", timestamp := 1000 }))
        (.resp true (some steveCoords)) 42 initialAppState).1 :=
  ⟨rfl, rfl, rfl, fun _ _ => rfl⟩

/-! ## Endpoint uniqueness (C10) -/

theorem testServer_fields (ip : String) (port : Nat)
    (health : FetchOutcome HealthResponse)
    (coords : FetchOutcome PlayerCoordinates) (r : ServerInfo)
    (hr : testServer ip port health coords = some r) :
    r.ip = ip ∧ r.port = port := by
  unfold testServer at hr
  cases health with
  | err => exact absurd hr (by simp)
  | resp hok hbody =>
    cases hok with
    | false => exact absurd hr (by simp)
    | true =>
      cases coords with
      | err => exact absurd hr (by simp)
      | resp cok cbody =>
        cases cok with
        | false =>
          cases hr
          exact ⟨rfl, rfl⟩
        | true =>
          cases cbody with
          | none => exact absurd hr (by simp)
          | some c =>
            cases hr
            exact ⟨rfl, rfl⟩

theorem filterMap_probe_ips_sublist (net : String → Nat → ProbeBehavior)
    (port : Nat) (l : List String) :
    ((l.filterMap (fun ip => testServer ip port (net ip port).health
      (net ip port).coords)).map (fun r => r.ip)).Sublist l := by
  induction l with
  | nil => simp
  | cons a as ih =>
    rw [List.filterMap_cons]
    cases h : testServer a port (net a port).health (net a port).coords with
    | none => exact ih.cons a
    | some r =>
      simp only [List.map_cons]
      rw [(testServer_fields a port _ _ r h).1]
      exact ih.cons₂ a

theorem getLocalNetworkBases_nodup (o : FetchOutcome String) :
    (getLocalNetworkBases o).Nodup := by
  cases o with
  | err => decide
  | resp ok b =>
    cases ok with
    | false => cases b <;> exact (by decide : defaultBases.Nodup)
    | true =>
      cases b with
      | none => decide
      | some ip =>
        rw [getLocalNetworkBases_success]
        split
        · rw [List.nodup_cons]
          constructor
          · intro hmem
            have := (List.mem_filter.mp hmem).2
            simp at this
          · exact (by decide : defaultBases.Nodup).filter _
        · decide

theorem candidates_disjoint (b1 b2 : String) (hne : b1 ≠ b2) :
    List.Disjoint (candidates b1) (candidates b2) := by
  intro x hx1 hx2
  simp only [candidates, List.mem_map] at hx1 hx2
  obtain ⟨i, hi, hxi⟩ := hx1
  obtain ⟨j, hj, hxj⟩ := hx2
  have hdf : ∀ k ∈ candidateOctets, dotFree (toString k) = true := by decide
  exact hne (string_dot_append_inj b1 b2 _ _ (hdf i hi) (hdf j hj)
    (hxi.trans hxj.symm)).1

theorem scan_addresses_nodup (o : FetchOutcome String) :
    ((getLocalNetworkBases o).flatMap candidates).Nodup := by
  rw [List.nodup_flatMap]
  refine ⟨fun b _ => candidates_nodup b, ?_⟩
  exact (getLocalNetworkBases_nodup o).imp
    (fun hne => candidates_disjoint _ _ hne)

/-- C10: in any scan's output the `(ip, port)` endpoints are pairwise
distinct — the resolved bases repeat no subnet and the candidate host
octets within a base are unique, so no probed address (hence no
returned server) occurs twice. -/
theorem claim_C10_endpoints_distinct (net : String → Nat → ProbeBehavior)
    (lookup : FetchOutcome String) (port : Nat) :
    ((findServers net lookup port).map (fun r => (r.ip, r.port))).Nodup := by
  have hsub : ((findServers net lookup port).map (fun r => r.ip)).Sublist
      ((getLocalNetworkBases lookup).flatMap candidates) := by
    rw [findServers_eq_filterMap]
    exact filterMap_probe_ips_sublist net port _
  have hips : ((findServers net lookup port).map (fun r => r.ip)).Nodup :=
    hsub.nodup (scan_addresses_nodup lookup)
  have hpw : (findServers net lookup port).Pairwise
      (fun a b : ServerInfo => a.ip ≠ b.ip) := List.pairwise_map.mp hips
  refine List.pairwise_map.mpr (hpw.imp ?_)
  intro a b hne hpair
  exact hne (congrArg Prod.fst hpair)
